import Mathlib

/-!
Verification development for the libgb-rs Game Boy emulation library.

This file shallowly embeds the instruction fetch/decode pipeline, the
memory bus, the cartridge mappers and the real-time clock of the library
into Lean, and proves (or refutes) the specification claims about them.

Machine integers are modelled as `Nat` with explicit `% 2^w` wherever the
Rust code can wrap; fallible Rust code is modelled with `Option` / `Except`,
and Rust `panic!` / failed `assert!` paths with an explicit `crash`
constructor, so that panic-freedom is a provable statement.
-/

namespace GB

/-! ## utils.rs -/

/-- `Merge<u8,u16> for u8` (utils.rs): `self.merge(b) = (b as u16) + ((self as u16) << 8)`.
The first argument plays the role of `self` and lands in the high byte; the
additions are u16 additions, hence the reductions mod 2^16. -/
def mergeBytes (a b : Nat) : Nat := (b + ((a <<< 8) % 65536)) % 65536

/-- `Split<u8> for u16` (utils.rs): `(self >> 8) as u8` and `self as u8`. -/
def splitWord (w : Nat) : Nat × Nat := ((w >>> 8) % 256, w % 256)

/-! ## cpu.rs: register file -/

/-- `CpuRegister` (cpu.rs): the eight lettered registers, with their Rust
discriminant values A=0, B=1, C=2, D=3, E=4, H=5, L=6, F=7. -/
inductive CpuRegister where
  | A | B | C | D | E | H | L | F
deriving DecidableEq

/-- The discriminant of a `CpuRegister`, i.e. the result of `idx as usize`. -/
def CpuRegister.idx : CpuRegister → Nat
  | .A => 0
  | .B => 1
  | .C => 2
  | .D => 3
  | .E => 4
  | .H => 5
  | .L => 6
  | .F => 7

/-- `FlagRegister` (cpu.rs). -/
structure FlagRegister where
  zero : Bool
  subtract : Bool
  half_carry : Bool
  carry : Bool

/-- `impl From<u8> for FlagRegister` (cpu.rs). -/
def flagRegisterOfNat (value : Nat) : FlagRegister :=
  { zero := value &&& 0x80 ≠ 0
    subtract := value &&& 0x40 ≠ 0
    half_carry := value &&& 0x20 ≠ 0
    carry := value &&& 0x10 ≠ 0 }

/-- `CpuData` (cpu.rs): the `Vec<u8>` of the eight registers is modelled as a
function from the Rust index (`idx as usize`) to the stored byte. -/
structure CpuData where
  registers : Nat → Nat
  sp : Nat
  pc : Nat

/-- `CpuData::new` (cpu.rs): `vec![0; 8]`, `sp = 0`, `pc = 0`. -/
def CpuData.new : CpuData := { registers := fun _ => 0, sp := 0, pc := 0 }

/-- `CpuData::get_register` (cpu.rs): `self.registers[idx as usize]`. -/
def CpuData.get_register (c : CpuData) (idx : CpuRegister) : Nat :=
  c.registers idx.idx

/-- `CpuData::set_register` (cpu.rs): `self.registers[idx as usize] = value`. -/
def CpuData.set_register (c : CpuData) (idx : CpuRegister) (value : Nat) : CpuData :=
  { c with registers := fun j => if j = idx.idx then value else c.registers j }

/-- `CpuData::get_joined_registers` (cpu.rs):
`right = get(idx1); left = get(idx2); left.merge(right)`. -/
def CpuData.get_joined_registers (c : CpuData) (idx1 idx2 : CpuRegister) : Nat :=
  let right := c.get_register idx1
  let left := c.get_register idx2
  mergeBytes left right

/-- `CpuData::set_joined_registers` (cpu.rs):
`(left_data, right_data) = data.split(); set(idx1, right_data); set(idx2, left_data)`. -/
def CpuData.set_joined_registers (c : CpuData) (idx1 idx2 : CpuRegister) (data : Nat) :
    CpuData :=
  let s := splitWord data
  let left_data := s.1
  let right_data := s.2
  (c.set_register idx1 right_data).set_register idx2 left_data

/-! ## memory/rtc.rs: real-time clock -/

/-- `RealTimeClock` (memory/rtc.rs) without the hidden `last_modified : Instant`
field: the wall-clock time elapsed since `last_modified`
(`self.last_modified.elapsed().as_secs()`) is instead passed to `update_time`
as an explicit `delta` argument. -/
structure RealTimeClock where
  seconds : Nat
  minutes : Nat
  hours : Nat
  days_lower : Nat
  days_upper : Nat
  halted : Bool
deriving DecidableEq

/-- `RealTimeClock::create_days_upper` (memory/rtc.rs). -/
def RealTimeClock.create_days_upper (rtc : RealTimeClock) (total_days : Nat) : Nat :=
  let carry := ((if total_days ≥ 0x200 then 1 else 0) <<< 7) ||| (rtc.days_upper &&& 0x80)
  let halted := (if rtc.halted then 1 else 0) <<< 6
  let days_bit := (total_days >>> 8) &&& 1
  let middle_bits := rtc.days_upper &&& 0x3E
  carry ||| halted ||| middle_bits ||| days_bit

/-- `RealTimeClock::update_time` (memory/rtc.rs), with the elapsed wall time
passed as `delta`. Note the source multiplies `hours` by `3500`. The
`as u8` casts on the seconds/minutes/hours values are no-ops (they are
already `< 256`); the cast on `total_days` is `% 256`. -/
def RealTimeClock.update_time (rtc : RealTimeClock) (delta : Nat) : RealTimeClock :=
  if rtc.halted then rtc
  else
    let current_seconds :=
      (((rtc.days_upper &&& 1) <<< 8) + rtc.days_lower) * 86400
        + rtc.hours * 3500 + rtc.minutes * 60 + rtc.seconds
    let updated_seconds := current_seconds + delta
    let total_days := updated_seconds / 86400
    { seconds := updated_seconds % 60
      minutes := (updated_seconds / 60) % 60
      hours := (updated_seconds / 3600) % 24
      days_lower := total_days % 256
      days_upper := rtc.create_days_upper total_days
      halted := rtc.halted }

/-- Spec-side reference semantics for the RTC reconciliation, written from the
spec's words for comparison with `RealTimeClock.update_time`: the epoch offset
uses `hours * 3600` (`days*86400 + hours*3600 + minutes*60 + seconds`), and the
new registers are the decomposition of the total, with the sticky carry and
halt bits recomposed into `day_upper`. -/
def RealTimeClock.update_time_spec (rtc : RealTimeClock) (delta : Nat) : RealTimeClock :=
  if rtc.halted then rtc
  else
    let current_seconds :=
      (((rtc.days_upper &&& 1) <<< 8) + rtc.days_lower) * 86400
        + rtc.hours * 3600 + rtc.minutes * 60 + rtc.seconds
    let total := current_seconds + delta
    let total_days := total / 86400
    { seconds := total % 60
      minutes := (total / 60) % 60
      hours := (total / 3600) % 24
      days_lower := total_days % 256
      days_upper := rtc.create_days_upper total_days
      halted := rtc.halted }

/-! ## memory/mod.rs: the DMG memory bus

The bus owns a `Box<dyn CartridgeMemoryBankController>`; the trait object is
modelled by an abstract cartridge state type `σ` together with a record of the
four cartridge operations the bus calls. A cartridge write that returns
`Err(MemoryWriteError)` is modelled as `none`.
-/

/-- The four cartridge operations of the `CartridgeMemoryBankController` trait
object held by `DmgMemoryController`, over an abstract cartridge state `σ`. -/
structure CartridgeOps (σ : Type) where
  read_rom : σ → Nat → Option Nat
  read_mem : σ → Nat → Option Nat
  write_rom : σ → Nat → Nat → Option σ
  write_mem : σ → Nat → Nat → Option (Nat × σ)

/-- `DmgMemoryController` (memory/mod.rs): the three fixed-size `u8` arrays are
modelled as functions from the (always in-bounds) array index to the byte. -/
structure DmgMemoryController (σ : Type) where
  cartridge : σ
  ram : Nat → Nat
  vram : Nat → Nat
  system : Nat → Nat

/-- `DmgMemoryController::load_byte` (memory/mod.rs). -/
def DmgMemoryController.load_byte {σ : Type} (ops : CartridgeOps σ)
    (s : DmgMemoryController σ) (address : Nat) : Option Nat :=
  if address ≤ 0x7FFF then ops.read_rom s.cartridge address
  else if 0xA000 ≤ address ∧ address ≤ 0xBFFF then
    ops.read_mem s.cartridge (address - 0xA000)
  else if 0x8000 ≤ address ∧ address ≤ 0x9FFF then some (s.vram (address - 0x8000))
  else if 0xC000 ≤ address ∧ address ≤ 0xDFFF then some (s.ram (address - 0xC000))
  else if 0xFE00 ≤ address ∧ address ≤ 0xFFFF then some (s.system (address - 0xFE00))
  else none

/-- `DmgMemoryController::load_half_word` (memory/mod.rs): `address + 1` is a
u16 addition, hence the reduction mod 2^16. -/
def DmgMemoryController.load_half_word {σ : Type} (ops : CartridgeOps σ)
    (s : DmgMemoryController σ) (address : Nat) : Option Nat :=
  match DmgMemoryController.load_byte ops s address with
  | none => none
  | some left =>
    match DmgMemoryController.load_byte ops s ((address + 1) % 65536) with
    | none => none
    | some right => some (mergeBytes left right)

/-- `DmgMemoryController::store_byte` (memory/mod.rs). On success it returns
the value the Rust method returns (for the ROM arm that is `data` itself, and
for the RAM / system arms it is the byte the source reads out of `self.vram`)
together with the updated bus. -/
def DmgMemoryController.store_byte {σ : Type} (ops : CartridgeOps σ)
    (s : DmgMemoryController σ) (address data : Nat) :
    Option (Nat × DmgMemoryController σ) :=
  if address ≤ 0x7FFF then
    match ops.write_rom s.cartridge address data with
    | none => none
    | some cart => some (data, { s with cartridge := cart })
  else if 0x8000 ≤ address ∧ address ≤ 0x9FFF then
    let address := address - 0x8000
    let prev := s.vram address
    some (prev, { s with vram := fun j => if j = address then data else s.vram j })
  else if 0xA000 ≤ address ∧ address ≤ 0xBFFF then
    match ops.write_mem s.cartridge (address - 0xA000) data with
    | none => none
    | some (prev, cart) => some (prev, { s with cartridge := cart })
  else if 0xC000 ≤ address ∧ address ≤ 0xDFFF then
    let address := address - 0xC000
    let prev := s.vram address
    some (prev, { s with ram := fun j => if j = address then data else s.ram j })
  else if 0xFE00 ≤ address ∧ address ≤ 0xFFFF then
    let address := address - 0xFE00
    let prev := s.vram address
    some (prev, { s with system := fun j => if j = address then data else s.system j })
  else none

/-- Result of `DmgMemoryController::store_half_word`: `ok` / `error` carry the
final bus state (the Rust method mutates in place and returns
`Result<(), MemoryWriteError>`), and `crash` models the `.unwrap()` panic on
the rollback path. -/
inductive HwStoreResult (σ : Type) where
  | ok : DmgMemoryController σ → HwStoreResult σ
  | error : DmgMemoryController σ → HwStoreResult σ
  | crash : HwStoreResult σ

/-- `DmgMemoryController::store_half_word` (memory/mod.rs): split the data,
store the `left` byte at `address`, the `right` byte at `address + 1`, and on
failure of the second store write `prev_left` back to `address`. -/
def DmgMemoryController.store_half_word {σ : Type} (ops : CartridgeOps σ)
    (s : DmgMemoryController σ) (address data : Nat) : HwStoreResult σ :=
  let sp := splitWord data
  let left_data := sp.1
  let right_data := sp.2
  match DmgMemoryController.store_byte ops s address left_data with
  | none => .error s
  | some (prev_left, s1) =>
    match DmgMemoryController.store_byte ops s1 ((address + 1) % 65536) right_data with
    | some (_, s2) => .ok s2
    | none =>
      match DmgMemoryController.store_byte ops s1 address prev_left with
      | some (_, s2) => .error s2
      | none => .crash

/-! ## memory/cartridge: the mapper family

`Vec<u8>` buffers are modelled as `List Nat`. Only the operations the claims
mention are embedded for `MBC1` and `MBC3` (constructor and save/load, which
delegate to `BankedRom`); `MBC2` is embedded in full.
-/

/-- `LoadCartridgeError` (memory/cartridge.rs). -/
inductive LoadCartridgeError where
  | UnsupportedType
  | InvalidRomFile
deriving DecidableEq

/-- `SaveError` (memory/cartridge.rs). -/
inductive SaveError where
  | SavesNotSupported
  | SaveFileTooBig
deriving DecidableEq

/-- `MemoryWriteError` (memory/mod.rs). -/
inductive MemoryWriteError where
  | mk
deriving DecidableEq

/-- `BankedRom` (memory/cartridge/bankedrom.rs). -/
structure BankedRom where
  rom : List Nat
  rom_bank : Nat
  ram : List Nat
  ram_bank : Nat
  has_battery : Bool
  manual_bank_logic : Bool

/-- `BankedRom::new` (memory/cartridge/bankedrom.rs): reject ROMs larger than
`ROM_BANK_SIZE * rom_banks`, then copy the bytes into a zero-padded buffer. -/
def BankedRom.new (rom_bytes : List Nat) (rom_banks ram_banks : Nat)
    (has_battery manual_bank_logic : Bool) : Except LoadCartridgeError BankedRom :=
  let ram_size := 8192 * ram_banks
  let rom_size := 16384 * rom_banks
  if rom_bytes.length > rom_size then .error .InvalidRomFile
  else
    .ok { rom := rom_bytes ++ List.replicate (rom_size - rom_bytes.length) 0
          rom_bank := 1
          ram := List.replicate ram_size 0
          ram_bank := 0
          has_battery := has_battery
          manual_bank_logic := manual_bank_logic }

/-- `BankedRom::set_rom_bank` (memory/cartridge/bankedrom.rs). The Rust `%`
panics when `bank_count` is zero; Lean's `% 0` is the identity, which no claim
exercises. -/
def BankedRom.set_rom_bank (b : BankedRom) (bank : Nat) : BankedRom :=
  let bank_count := b.rom.length / 16384
  { b with rom_bank := bank % bank_count }

/-- `BankedRom::read_rom` (memory/cartridge/bankedrom.rs). -/
def BankedRom.read_rom (b : BankedRom) (address : Nat) : Option Nat :=
  if address ≥ 0x8000 then none
  else
    let offset := address &&& 0x3FFF
    let tag := if ¬b.manual_bank_logic ∧ offset = address then 0 else b.rom_bank
    let rom_address := (tag <<< 14) ||| offset
    b.rom.get? rom_address

/-- `BankedRom::set_mem_bank` (memory/cartridge/bankedrom.rs). -/
def BankedRom.set_mem_bank (b : BankedRom) (bank : Nat) : BankedRom :=
  let bank_count := b.ram.length / 8192
  { b with ram_bank := bank % bank_count }

/-- `BankedRom::read_mem` (memory/cartridge/bankedrom.rs). -/
def BankedRom.read_mem (b : BankedRom) (address : Nat) : Option Nat :=
  if address ≥ 0x2000 then none
  else
    let offset := address &&& 0x1FFF
    let ram_address := (b.ram_bank <<< 13) ||| offset
    b.ram.get? ram_address

/-- `BankedRom::write_mem` (memory/cartridge/bankedrom.rs). -/
def BankedRom.write_mem (b : BankedRom) (address value : Nat) :
    Except MemoryWriteError (Nat × BankedRom) :=
  if address ≥ 0x2000 then .error .mk
  else
    let address := address &&& 0x1FFF
    let ram_address := (b.ram_bank <<< 13) ||| address
    match b.ram.get? ram_address with
    | none => .error .mk
    | some old_value => .ok (old_value, { b with ram := b.ram.set ram_address value })

/-- `BankedRom::load_save` (memory/cartridge/bankedrom.rs): the
`copy_from_slice` into `ram[0 .. save_data.len()]` replaces the first
`save_data.len()` bytes of the RAM buffer. -/
def BankedRom.load_save (b : BankedRom) (save_data : List Nat) :
    Except SaveError BankedRom :=
  if ¬b.has_battery then .error .SavesNotSupported
  else if save_data.length > b.ram.length then .error .SaveFileTooBig
  else .ok { b with ram := save_data ++ b.ram.drop save_data.length }

/-- `BankedRom::save` (memory/cartridge/bankedrom.rs): `self.ram.clone()`. -/
def BankedRom.save (b : BankedRom) : List Nat := b.ram

/-- `MBC2` (memory/cartridge/mbc2.rs): `ram` is the 512-byte half-byte RAM. -/
structure MBC2 where
  rom : BankedRom
  ram : List Nat
  ram_enabled : Bool
  has_battery : Bool

/-- `MBC2::create` (memory/cartridge/mbc2.rs): the `BankedRom` is built with
zero RAM banks and `has_battery = false`; `_ram_banks` is ignored. -/
def MBC2.create (rom : List Nat) (rom_banks ram_banks : Nat) (has_battery : Bool) :
    Except LoadCartridgeError MBC2 :=
  let _ := ram_banks
  match BankedRom.new rom rom_banks 0 false false with
  | .error e => .error e
  | .ok rom =>
    .ok { rom := rom
          ram := List.replicate 512 0
          ram_enabled := false
          has_battery := has_battery }

/-- `MBC2::read_rom` (memory/cartridge/mbc2.rs). -/
def MBC2.read_rom (m : MBC2) (address : Nat) : Option Nat :=
  m.rom.read_rom address

/-- `MBC2::write_rom` (memory/cartridge/mbc2.rs): on success the updated
mapper is returned; `none` models `Err(MemoryWriteError)`. -/
def MBC2.write_rom (m : MBC2) (address data : Nat) : Option MBC2 :=
  if address > 0x7FFF then none
  else if address ≥ 16384 then some m
  else if address &&& 0x0100 = 0 then some { m with ram_enabled := data = 0x0A }
  else
    let bank := data &&& 0x1F
    let bank := if bank ≠ 0 then bank else 1
    some { m with rom := m.rom.set_rom_bank bank }

/-- `MBC2::read_mem` (memory/cartridge/mbc2.rs). -/
def MBC2.read_mem (m : MBC2) (address : Nat) : Option Nat :=
  let address := address &&& 0x1FF
  if m.ram_enabled then m.ram.get? address else some 0xFF

/-- `MBC2::write_mem` (memory/cartridge/mbc2.rs): stores `data & 0xF` and
returns the previous byte. -/
def MBC2.write_mem (m : MBC2) (address data : Nat) :
    Except MemoryWriteError (Nat × MBC2) :=
  if ¬m.ram_enabled then .ok (0xFF, m)
  else
    let address := address &&& 0x1FF
    match m.ram.get? address with
    | none => .error .mk
    | some old_value =>
      .ok (old_value, { m with ram := m.ram.set address (data &&& 0xF) })

/-- `MBC2::load_save` (memory/cartridge/mbc2.rs): the index loop writes
`save_data[idx] & 0xF` into `ram[idx]` for every `idx < save_data.len()`,
i.e. it replaces the first `save_data.len()` bytes with the masked bytes. -/
def MBC2.load_save (m : MBC2) (save_data : List Nat) : Except SaveError MBC2 :=
  if ¬m.has_battery then .error .SavesNotSupported
  else if save_data.length > 512 then .error .SaveFileTooBig
  else
    .ok { m with
          ram := (save_data.map fun b => b &&& 0xF) ++ m.ram.drop save_data.length }

/-- `MBC2::save` (memory/cartridge/mbc2.rs): `self.ram.into()`. -/
def MBC2.save (m : MBC2) : List Nat := m.ram

/-- `RomOnlyCartridge` (memory/cartridge/basicrom.rs). -/
structure RomOnlyCartridge where
  rom : List Nat
  ram : Option (List Nat)
  has_battery : Bool

/-- `RomOnlyCartridge::new` (memory/cartridge/basicrom.rs). The source's guard
compares the length of the freshly allocated 32768-byte array (not of
`rom_data`) against `ROM_SIZE`, so it never fires; the subsequent
`copy_from_slice` panics for oversized `rom_data`, a path no claim exercises
and which is modelled here by truncating padding arithmetic. -/
def RomOnlyCartridge.new (rom_data : List Nat) (has_ram has_battery : Bool) :
    Except LoadCartridgeError RomOnlyCartridge :=
  let ram := if has_ram then some (List.replicate 8192 0) else none
  .ok { rom := rom_data ++ List.replicate (32768 - rom_data.length) 0
        ram := ram
        has_battery := has_battery }

/-- `RomOnlyCartridge::load_save` (memory/cartridge/basicrom.rs). -/
def RomOnlyCartridge.load_save (c : RomOnlyCartridge) (save_data : List Nat) :
    Except SaveError RomOnlyCartridge :=
  if ¬c.has_battery then .error .SavesNotSupported
  else
    match c.ram with
    | some ram =>
      if ram.length < save_data.length then .error .SaveFileTooBig
      else .ok { c with ram := some (save_data ++ ram.drop save_data.length) }
    | none => .error .SavesNotSupported

/-- `RomOnlyCartridge::save` (memory/cartridge/basicrom.rs). -/
def RomOnlyCartridge.save (c : RomOnlyCartridge) : List Nat :=
  match c.ram with
  | some ram => ram
  | none => []

/-- `StorageMode` (memory/cartridge/mbc1.rs). -/
inductive StorageMode where
  | ROM
  | RAM
deriving DecidableEq

/-- `MBC1` (memory/cartridge/mbc1.rs); the `RefCell` around the `BankedRom` is
dropped (single-threaded interior mutability only). -/
structure MBC1 where
  rom : BankedRom
  storage_mode : StorageMode
  rom_bank : Nat
  ram_bank : Nat
  ram_enabled : Bool
  extra_storage : Bool

/-- `MBC1::new` (memory/cartridge/mbc1.rs). -/
def MBC1.new (rom : List Nat) (rom_banks ram_banks : Nat) (has_battery : Bool) :
    Except LoadCartridgeError MBC1 :=
  match BankedRom.new rom rom_banks ram_banks has_battery true with
  | .error e => .error e
  | .ok rom =>
    .ok { rom := rom
          storage_mode := .ROM
          ram_bank := 0
          rom_bank := 1
          ram_enabled := false
          extra_storage := rom_banks > 32 }

/-- `MBC1::load_save` (memory/cartridge/mbc1.rs): delegates to the inner
`BankedRom`. -/
def MBC1.load_save (m : MBC1) (save_data : List Nat) : Except SaveError MBC1 :=
  match m.rom.load_save save_data with
  | .error e => .error e
  | .ok rom => .ok { m with rom := rom }

/-- `MBC1::save` (memory/cartridge/mbc1.rs): delegates to the inner `BankedRom`. -/
def MBC1.save (m : MBC1) : List Nat := m.rom.save

/-- `MBC3` (memory/cartridge/mbc3.rs). -/
structure MBC3 where
  rom : BankedRom
  ram_enabled : Bool
  ram_bank : Nat
  rtc : Option RealTimeClock
  latching : Bool

/-- `MBC3::new` (memory/cartridge/mbc3.rs). -/
def MBC3.new (rom : List Nat) (rom_banks ram_banks : Nat) (has_battery : Bool)
    (rtc : Option RealTimeClock) : Except LoadCartridgeError MBC3 :=
  match BankedRom.new rom rom_banks ram_banks has_battery false with
  | .error e => .error e
  | .ok rom =>
    .ok { rom := rom
          ram_enabled := false
          ram_bank := 1
          rtc := rtc
          latching := false }

/-- `MBC3::load_save` (memory/cartridge/mbc3.rs): delegates to the inner
`BankedRom`. -/
def MBC3.load_save (m : MBC3) (save_data : List Nat) : Except SaveError MBC3 :=
  match m.rom.load_save save_data with
  | .error e => .error e
  | .ok rom => .ok { m with rom := rom }

/-- `MBC3::save` (memory/cartridge/mbc3.rs): delegates to the inner `BankedRom`. -/
def MBC3.save (m : MBC3) : List Nat := m.rom.save

/-! ## memory/cartridge/builder.rs: the cartridge factory -/

/-- The `Box<dyn CartridgeMapper>` produced by the factory, as a tagged union
of the four mapper variants. -/
inductive GbCartridge where
  | romOnly : RomOnlyCartridge → GbCartridge
  | mbc1 : MBC1 → GbCartridge
  | mbc2 : MBC2 → GbCartridge
  | mbc3 : MBC3 → GbCartridge

/-- Modelled from the spec: `RealTimeClock::default()` is called by the
factory but no `Default` impl is in src; the spec's RTC starts fresh with all
registers zero and not halted. -/
def RealTimeClock.default : RealTimeClock :=
  { seconds := 0, minutes := 0, hours := 0, days_lower := 0, days_upper := 0
    halted := false }

/-- `TryFrom<Vec<u8>> for Box<dyn CartridgeMapper>` (memory/cartridge/builder.rs).
Faithful to the source, which reads byte `0x148` a second time for `ram_size`
(not byte `0x149`), computes `rom_banks = 2 << rom_size` in `u8` arithmetic,
and maps `ram_size` through `{0→0, 1..=2→1, 3→4, 4→16, 5→8, _→error}`.
The call `MBC2::new(rom, rom_banks, battery)` resolves to the `create`
constructor present in src, whose `_ram_banks` parameter is unused. -/
def cartridge_try_from (rom : List Nat) : Except LoadCartridgeError GbCartridge :=
  match rom.get? 0x147 with
  | none => .error .InvalidRomFile
  | some cartridge_type =>
    match rom.get? 0x148 with
    | none => .error .InvalidRomFile
    | some rom_size =>
      match rom.get? 0x148 with
      | none => .error .InvalidRomFile
      | some ram_size =>
        let rom_banks := (2 <<< (rom_size % 8)) % 256
        let mem_banks? : Option Nat :=
          match ram_size with
          | 0 => some 0
          | 1 => some 1
          | 2 => some 1
          | 3 => some 4
          | 4 => some 16
          | 5 => some 8
          | _ => none
        match mem_banks? with
        | none => .error .InvalidRomFile
        | some mem_banks =>
          match cartridge_type with
          | 0x00 => (RomOnlyCartridge.new rom false false).map .romOnly
          | 0x08 => (RomOnlyCartridge.new rom true false).map .romOnly
          | 0x09 => (RomOnlyCartridge.new rom true true).map .romOnly
          | 0x01 => (MBC1.new rom rom_banks 0 false).map .mbc1
          | 0x02 => (MBC1.new rom rom_banks mem_banks false).map .mbc1
          | 0x03 => (MBC1.new rom rom_banks mem_banks true).map .mbc1
          | 0x05 => (MBC2.create rom rom_banks 0 false).map .mbc2
          | 0x06 => (MBC2.create rom rom_banks 0 true).map .mbc2
          | 0x0F => (MBC3.new rom rom_banks 0 true (some RealTimeClock.default)).map .mbc3
          | 0x10 =>
            (MBC3.new rom rom_banks mem_banks true (some RealTimeClock.default)).map .mbc3
          | 0x11 => (MBC3.new rom rom_banks 0 false none).map .mbc3
          | 0x12 => (MBC3.new rom rom_banks mem_banks false none).map .mbc3
          | 0x13 => (MBC3.new rom rom_banks mem_banks true none).map .mbc3
          | _ => .error .UnsupportedType

/-! ## cpu/instructions.rs: the operation IR -/

/-- `Operation` (cpu/instructions.rs): register indices, 8/16-bit literals and
bit indices are `Nat`; the signed `AddStackPointer` offset is `Int`. -/
inductive Operation where
  | NOP
  | Load8 : Nat → Nat → Operation
  | Load16 : Nat → Nat → Operation
  | Store8 : Nat → Nat → Operation
  | Store16 : Nat → Nat → Operation
  | Add8 : Nat → Bool → Operation
  | Add16 : Nat → Operation
  | Sub8 : Nat → Bool → Operation
  | And8 : Nat → Operation
  | Or8 : Nat → Operation
  | Xor8 : Nat → Operation
  | Compare8 : Nat → Operation
  | Increment8 : Nat → Operation
  | Increment16 : Nat → Operation
  | Decrement8 : Nat → Operation
  | Decrement16 : Nat → Operation
  | RotateLeft : Nat → Bool → Operation
  | RotateRight : Nat → Bool → Operation
  | ShiftLeftArithmetic : Nat → Operation
  | ShiftRightArithmetic : Nat → Operation
  | ShiftRightLogical : Nat → Operation
  | SwapBits : Nat → Operation
  | DAA
  | Complement
  | SetCarryFlag
  | ComplementCarryFlag
  | Jump : Nat → Operation
  | Call : Nat → Operation
  | Return : Bool → Operation
  | TestBit : Nat → Nat → Operation
  | ResetBit : Nat → Nat → Operation
  | SetBit : Nat → Nat → Operation
  | PopStack : Nat → Operation
  | PushStack : Nat → Operation
  | AddStackPointer : Int → Operation
  | SetStackPointer : Nat → Operation
  | EnableInterrupts
  | DisableInterrupts
  | Stop
  | Halt
deriving DecidableEq

/-- `Instruction` (cpu/instructions.rs). -/
structure Instruction where
  cycles : Nat
  op : Operation
deriving DecidableEq

/-! ## lib.rs and cpu/decode.rs: the system and the decoder -/

/-- `GameBoySystemError` (lib.rs). -/
inductive GameBoySystemError where
  | MemoryReadError : Nat → GameBoySystemError
  | MemoryWriteError : Nat → Nat → GameBoySystemError
  | InvalidInstructionError : Nat → GameBoySystemError
deriving DecidableEq

/-- Result of a decoder step: `ok` and `err` mirror the Rust
`Result<_, GameBoySystemError>`, and `crash` marks a `panic!` or a failed
`assert!` in the source. -/
inductive RResult (α : Type) where
  | ok : α → RResult α
  | err : GameBoySystemError → RResult α
  | crash : RResult α

/-- The `Box<dyn MemoryController>` held by `GameBoySystem`, restricted to the
two read operations the decoder uses. The two functions are independent, as
they are for an arbitrary trait object. -/
structure Bus where
  loadByte : Nat → Option Nat
  loadHalfWord : Nat → Option Nat

/-- `GameBoySystem` (lib.rs). -/
structure GameBoySystem where
  registers : CpuData
  memory : Bus

/-- `const REG_A: u8 = 0` (cpu/decode.rs). -/
def REG_A : Nat := 0

/-- `const REG_MEM_READ: u8 = 6` (cpu/decode.rs). -/
def REG_MEM_READ : Nat := 6

/-- Sign extension `(byte as i8) as u16` for a fetched byte. -/
def signExtend8To16 (b : Nat) : Nat := if b < 128 then b else 65280 + b

/-- Reinterpretation `byte as i8` for a fetched byte. -/
def toI8 (b : Nat) : Int := if b < 128 then (b : Int) else (b : Int) - 256

/-- `GameBoySystem::fetch_byte` (lib.rs): load the byte at `pc`, then advance
`pc` by one (u16 wrap). -/
def GameBoySystem.fetch_byte (s : GameBoySystem) : RResult (Nat × GameBoySystem) :=
  match s.memory.loadByte s.registers.pc with
  | none => .err (.MemoryReadError s.registers.pc)
  | some byte =>
    .ok (byte,
      { s with registers := { s.registers with pc := (s.registers.pc + 1) % 65536 } })

/-- `GameBoySystem::fetch_imm16` (lib.rs): a `load_half_word` at `pc`, then
advance `pc` by two (u16 wrap). -/
def GameBoySystem.fetch_imm16 (s : GameBoySystem) : RResult (Nat × GameBoySystem) :=
  match s.memory.loadHalfWord s.registers.pc with
  | none => .err (.MemoryReadError s.registers.pc)
  | some half_word =>
    .ok (half_word,
      { s with registers := { s.registers with pc := (s.registers.pc + 2) % 65536 } })

/-- `GameBoySystem::get_cond_flag` (cpu/decode.rs): flag codes 0..3 select
NZ / Z / NC / C against register F; any other code panics. -/
def GameBoySystem.get_cond_flag (s : GameBoySystem) (flag_code : Nat) : RResult Bool :=
  let flag_register := flagRegisterOfNat (s.registers.get_register .F)
  match flag_code with
  | 0 => .ok (!flag_register.zero)
  | 1 => .ok flag_register.zero
  | 2 => .ok (!flag_register.carry)
  | 3 => .ok flag_register.carry
  | _ => .crash

/-- Modelled from the spec: the `u8 → CpuRegister` conversion used by
`get_r8` / `set_r8` (`reg.into()`) has no `impl From<u8> for CpuRegister` in
src; the spec's register indices 0..7 are the enum discriminants A=0 .. F=7,
so the conversion inverts `CpuRegister::idx`. Call sites only pass values
below 8. -/
def cpuRegisterOfNat (reg : Nat) : CpuRegister :=
  match reg with
  | 0 => .A
  | 1 => .B
  | 2 => .C
  | 3 => .D
  | 4 => .E
  | 5 => .H
  | 6 => .L
  | _ => .F

/-- `GameBoySystem::get_r8` (lib.rs): index 6 reads the bus at HL, the others
read the register file. -/
def GameBoySystem.get_r8 (s : GameBoySystem) (reg : Nat) : RResult Nat :=
  if reg = 6 then
    let addr := s.registers.get_joined_registers .H .L
    match s.memory.loadByte addr with
    | none => .err (.MemoryReadError addr)
    | some v => .ok v
  else .ok (s.registers.get_register (cpuRegisterOfNat reg))

/-- `GameBoySystem::get_r16` (lib.rs): BC, DE, HL, SP; other indices panic. -/
def GameBoySystem.get_r16 (s : GameBoySystem) (register : Nat) : RResult Nat :=
  match register with
  | 0 => .ok (s.registers.get_joined_registers .B .C)
  | 1 => .ok (s.registers.get_joined_registers .D .E)
  | 2 => .ok (s.registers.get_joined_registers .H .L)
  | 3 => .ok s.registers.sp
  | _ => .crash

/-- `GameBoySystem::get_r16_mem` (lib.rs): BC, DE, HL+, HL-; the latter two
post-increment / post-decrement HL (u16 wrap); other indices panic. -/
def GameBoySystem.get_r16_mem (s : GameBoySystem) (register : Nat) :
    RResult (Nat × GameBoySystem) :=
  match register with
  | 0 => .ok (s.registers.get_joined_registers .B .C, s)
  | 1 => .ok (s.registers.get_joined_registers .D .E, s)
  | 2 =>
    let value := s.registers.get_joined_registers .H .L
    .ok (value,
      { s with registers := s.registers.set_joined_registers .H .L ((value + 1) % 65536) })
  | 3 =>
    let value := s.registers.get_joined_registers .H .L
    .ok (value,
      { s with registers :=
          s.registers.set_joined_registers .H .L ((value + 65535) % 65536) })
  | _ => .crash

/-- `GameBoySystem::load_jump_relative` (cpu/decode.rs): fetch a signed
displacement, form `pc + disp` with u16 overflow, and gate on the condition
flag when bit 5 of the opcode is set. -/
def GameBoySystem.load_jump_relative (s : GameBoySystem) (instruction : Nat) :
    RResult (Instruction × GameBoySystem) :=
  let jump_type := instruction &&& 0x20
  match s.fetch_byte with
  | .err e => .err e
  | .crash => .crash
  | .ok (b, s1) =>
    let offset := signExtend8To16 b
    let address := (s1.registers.pc + offset) % 65536
    let result : Instruction := { cycles := 3, op := .Jump address }
    if jump_type = 0 then .ok (result, s1)
    else
      match s1.get_cond_flag ((instruction &&& 0x18) >>> 3) with
      | .err e => .err e
      | .crash => .crash
      | .ok true => .ok (result, s1)
      | .ok false => .ok ({ cycles := 2, op := .NOP }, s1)

/-- `GameBoySystem::load_block_0_16bit` (cpu/decode.rs). -/
def GameBoySystem.load_block_0_16bit (s : GameBoySystem) (instruction : Nat) :
    RResult (Instruction × GameBoySystem) :=
  let fn4 := instruction &&& 0x0F
  let register := (instruction &&& 0x18) >>> 3
  match fn4 with
  | 1 =>
    match s.fetch_imm16 with
    | .err e => .err e
    | .crash => .crash
    | .ok (v, s1) => .ok ({ cycles := 3, op := .Load16 register v }, s1)
  | 2 =>
    match s.get_r16_mem register with
    | .err e => .err e
    | .crash => .crash
    | .ok (address, s1) =>
      .ok ({ cycles := 2, op := .Store8 address (s1.registers.get_register .A) }, s1)
  | 0xA =>
    match s.get_r16_mem register with
    | .err e => .err e
    | .crash => .crash
    | .ok (address, s1) =>
      match s1.memory.loadByte address with
      | none => .err (.MemoryReadError address)
      | some v => .ok ({ cycles := 2, op := .Load8 7 v }, s1)
  | 8 =>
    match s.fetch_imm16 with
    | .err e => .err e
    | .crash => .crash
    | .ok (v, s1) => .ok ({ cycles := 5, op := .Store16 v s1.registers.sp }, s1)
  | 3 => .ok ({ cycles := 2, op := .Increment16 register }, s)
  | 0xB => .ok ({ cycles := 2, op := .Decrement16 register }, s)
  | 9 =>
    match s.get_r16 register with
    | .err e => .err e
    | .crash => .crash
    | .ok v => .ok ({ cycles := 2, op := .Add16 v }, s)
  | _ => .crash

/-- `GameBoySystem::load_block_0_alu` (cpu/decode.rs): pure lookup of the
eight rotate/DAA/flag opcodes; `none` marks the panic arm. -/
def load_block_0_alu (instruction : Nat) : Option Instruction :=
  match instruction with
  | 0x07 => some { cycles := 1, op := .RotateLeft 0 true }
  | 0x0F => some { cycles := 1, op := .RotateRight 0 true }
  | 0x17 => some { cycles := 1, op := .RotateLeft 0 false }
  | 0x1F => some { cycles := 1, op := .RotateRight 0 false }
  | 0x27 => some { cycles := 1, op := .DAA }
  | 0x2F => some { cycles := 1, op := .Complement }
  | 0x37 => some { cycles := 1, op := .SetCarryFlag }
  | 0x3F => some { cycles := 1, op := .ComplementCarryFlag }
  | _ => none

/-- `GameBoySystem::load_block_0` (cpu/decode.rs). -/
def GameBoySystem.load_block_0 (s : GameBoySystem) (instruction : Nat) :
    RResult (Instruction × GameBoySystem) :=
  if ¬(instruction &&& 0xC0 = 0) then .crash
  else
    let fn3 := instruction &&& 0x07
    if fn3 = 0 ∧ ¬(instruction &&& 0xF0 = 0) then s.load_jump_relative instruction
    else if fn3 < 4 then s.load_block_0_16bit instruction
    else if fn3 = 7 then
      match load_block_0_alu instruction with
      | some i => .ok (i, s)
      | none => .crash
    else
      let reg := (instruction >>> 4) &&& 0x03
      let cycles := if reg = REG_MEM_READ then 3 else if fn3 = 6 then 2 else 1
      match fn3 with
      | 4 => .ok ({ cycles := cycles, op := .Increment8 reg }, s)
      | 5 => .ok ({ cycles := cycles, op := .Decrement8 reg }, s)
      | 6 =>
        match s.fetch_byte with
        | .err e => .err e
        | .crash => .crash
        | .ok (b, s1) => .ok ({ cycles := cycles, op := .Load8 reg b }, s1)
      | _ => .crash

/-- `GameBoySystem::load_block_1` (cpu/decode.rs): register-to-register loads
plus the `0x76` HALT exception. -/
def GameBoySystem.load_block_1 (s : GameBoySystem) (instruction : Nat) :
    RResult (Instruction × GameBoySystem) :=
  if ¬(instruction &&& 0xC0 = 0x40) then .crash
  else
    let src_reg := instruction &&& 7
    let dest_reg := (instruction >>> 3) &&& 7
    if src_reg = dest_reg ∧ src_reg = REG_MEM_READ then
      .ok ({ cycles := 1, op := .Halt }, s)
    else
      match s.get_r8 src_reg with
      | .err e => .err e
      | .crash => .crash
      | .ok v => .ok ({ cycles := 2, op := .Load8 dest_reg v }, s)

/-- `GameBoySystem::load_block_2` (cpu/decode.rs): register-against-A ALU. -/
def GameBoySystem.load_block_2 (s : GameBoySystem) (instruction : Nat) :
    RResult (Instruction × GameBoySystem) :=
  if ¬(instruction &&& 0xC0 = 0x80) then .crash
  else
    let register := instruction &&& 7
    match s.get_r8 register with
    | .err e => .err e
    | .crash => .crash
    | .ok value =>
      let opcode := instruction >>> 3
      let cycles := if register = REG_MEM_READ then 2 else 1
      match opcode with
      | 0x10 => .ok ({ cycles := cycles, op := .Add8 value false }, s)
      | 0x11 => .ok ({ cycles := cycles, op := .Add8 value true }, s)
      | 0x12 => .ok ({ cycles := cycles, op := .Sub8 value false }, s)
      | 0x13 => .ok ({ cycles := cycles, op := .Sub8 value true }, s)
      | 0x14 => .ok ({ cycles := cycles, op := .And8 value }, s)
      | 0x15 => .ok ({ cycles := cycles, op := .Xor8 value }, s)
      | 0x16 => .ok ({ cycles := cycles, op := .Or8 value }, s)
      | 0x17 => .ok ({ cycles := cycles, op := .Compare8 value }, s)
      | _ => .crash

/-- `GameBoySystem::load_block_3_alu` (cpu/decode.rs): the immediate-operand
ALU opcodes (`fn3 == 6` in block 3). -/
def GameBoySystem.load_block_3_alu (s : GameBoySystem) (instruction : Nat) :
    RResult (Instruction × GameBoySystem) :=
  match s.fetch_byte with
  | .err e => .err e
  | .crash => .crash
  | .ok (imm8, s1) =>
    let fn3 := (instruction >>> 3) &&& 7
    match fn3 with
    | 0 => .ok ({ cycles := 2, op := .Add8 imm8 false }, s1)
    | 1 => .ok ({ cycles := 2, op := .Add8 imm8 true }, s1)
    | 2 => .ok ({ cycles := 2, op := .Sub8 imm8 false }, s1)
    | 3 => .ok ({ cycles := 2, op := .Sub8 imm8 true }, s1)
    | 4 => .ok ({ cycles := 2, op := .And8 imm8 }, s1)
    | 5 => .ok ({ cycles := 2, op := .Xor8 imm8 }, s1)
    | 6 => .ok ({ cycles := 2, op := .Or8 imm8 }, s1)
    | 7 => .ok ({ cycles := 2, op := .Compare8 imm8 }, s1)
    | _ => .crash

/-- `GameBoySystem::load_block_3_stack` (cpu/decode.rs): pure push/pop lookup;
`none` marks the panic arm. -/
def load_block_3_stack (instruction : Nat) : Option Instruction :=
  let r16stk := (instruction >>> 4) &&& 3
  match instruction &&& 0xF with
  | 1 => some { cycles := 3, op := .PopStack r16stk }
  | 5 => some { cycles := 3, op := .PushStack r16stk }
  | _ => none

/-- `GameBoySystem::load_block_3_cond` (cpu/decode.rs): conditional
RET / JP / CALL; emits a NOP with the not-taken cycle count when the condition
fails. -/
def GameBoySystem.load_block_3_cond (s : GameBoySystem) (instruction : Nat) :
    RResult (Instruction × GameBoySystem) :=
  let fn3 := instruction &&& 7
  match s.get_cond_flag ((instruction >>> 3) &&& 3) with
  | .err e => .err e
  | .crash => .crash
  | .ok cond_flag =>
    if ¬cond_flag then
      match fn3 with
      | 0 => .ok ({ cycles := 2, op := .NOP }, s)
      | 2 => .ok ({ cycles := 3, op := .NOP }, s)
      | 4 => .ok ({ cycles := 3, op := .NOP }, s)
      | _ => .crash
    else
      match fn3 with
      | 0 => .ok ({ cycles := 5, op := .Return false }, s)
      | 2 =>
        match s.fetch_imm16 with
        | .err e => .err e
        | .crash => .crash
        | .ok (v, s1) => .ok ({ cycles := 4, op := .Jump v }, s1)
      | 4 =>
        match s.fetch_imm16 with
        | .err e => .err e
        | .crash => .crash
        | .ok (v, s1) => .ok ({ cycles := 6, op := .Call v }, s1)
      | _ => .crash

/-- `GameBoySystem::load_prefixed_alu` (cpu/decode.rs): pure lookup of the
CB-prefixed shift/rotate family; `none` marks the `assert!` and panic arms. -/
def load_prefixed_alu (fn3 register : Nat) : Option Operation :=
  if ¬(register < 8) then none
  else
    match fn3 with
    | 0 => some (.RotateLeft register true)
    | 1 => some (.RotateRight register true)
    | 2 => some (.RotateLeft register false)
    | 3 => some (.RotateRight register false)
    | 4 => some (.ShiftLeftArithmetic register)
    | 5 => some (.ShiftRightArithmetic register)
    | 6 => some (.SwapBits register)
    | 7 => some (.ShiftRightLogical register)
    | _ => none

/-- `GameBoySystem::load_prefixed` (cpu/decode.rs): fetch the second byte of a
`0xCB`-prefixed instruction and decode it. -/
def GameBoySystem.load_prefixed (s : GameBoySystem) :
    RResult (Instruction × GameBoySystem) :=
  match s.fetch_byte with
  | .err e => .err e
  | .crash => .crash
  | .ok (instruction, s1) =>
    let fn2 := instruction >>> 6
    let index := (instruction >>> 3) &&& 7
    let register := instruction &&& 7
    let cycles :=
      if fn2 = 1 ∧ register = REG_MEM_READ then 3
      else if register = REG_MEM_READ then 4
      else 2
    match fn2 with
    | 0 =>
      match load_prefixed_alu index register with
      | some op => .ok ({ cycles := cycles, op := op }, s1)
      | none => .crash
    | 1 => .ok ({ cycles := cycles, op := .TestBit register index }, s1)
    | 2 => .ok ({ cycles := cycles, op := .ResetBit register index }, s1)
    | 3 => .ok ({ cycles := cycles, op := .SetBit register index }, s1)
    | _ => .crash

/-- `GameBoySystem::load_block_3` (cpu/decode.rs). The guards run in source
order: `0xCB` prefix, immediate ALU (`fn3 == 6`), RST calls, push/pop
(`fn4 ∈ {1, 5}`), conditional control for every remaining even opcode, then
the explicit lookup of the odd opcodes with `InvalidInstructionError` as the
catch-all. -/
def GameBoySystem.load_block_3 (s : GameBoySystem) (instruction : Nat) :
    RResult (Instruction × GameBoySystem) :=
  if ¬(instruction &&& 0xC0 = 0xC0) then .crash
  else
    let fn3 := instruction &&& 7
    let tgt := instruction &&& 0x38
    if instruction = 0xCB then s.load_prefixed
    else if fn3 = 6 then s.load_block_3_alu instruction
    else if fn3 = 7 ∧ ¬(instruction &&& 0x2 = 0) then
      .ok ({ cycles := 4, op := .Call tgt }, s)
    else
      let fn4 := instruction &&& 0xF
      if fn4 = 1 ∨ fn4 = 5 then
        match load_block_3_stack instruction with
        | some i => .ok (i, s)
        | none => .crash
      else if instruction &&& 1 = 0 then s.load_block_3_cond instruction
      else
        match instruction with
        | 0xC9 => .ok ({ cycles := 4, op := .Return false }, s)
        | 0xD9 => .ok ({ cycles := 4, op := .Return true }, s)
        | 0xC3 =>
          match s.fetch_imm16 with
          | .err e => .err e
          | .crash => .crash
          | .ok (v, s1) => .ok ({ cycles := 4, op := .Jump v }, s1)
        | 0xE9 =>
          .ok ({ cycles := 1, op := .Jump (s.registers.get_joined_registers .H .L) }, s)
        | 0xCD =>
          match s.fetch_imm16 with
          | .err e => .err e
          | .crash => .crash
          | .ok (v, s1) => .ok ({ cycles := 6, op := .Call v }, s1)
        | 0xE0 =>
          match s.fetch_byte with
          | .err e => .err e
          | .crash => .crash
          | .ok (b, s1) =>
            .ok ({ cycles := 3,
                   op := .Store8 (0xFF00 + b) (s1.registers.get_register .A) }, s1)
        | 0xE2 =>
          .ok ({ cycles := 2,
                 op := .Store8 (0xFF00 + s.registers.get_register .C)
                   (s.registers.get_register .A) }, s)
        | 0xEA =>
          match s.fetch_imm16 with
          | .err e => .err e
          | .crash => .crash
          | .ok (v, s1) =>
            .ok ({ cycles := 4, op := .Store8 v (s1.registers.get_register .A) }, s1)
        | 0xF0 =>
          match s.fetch_byte with
          | .err e => .err e
          | .crash => .crash
          | .ok (b, s1) =>
            let addr := 0xFF00 + b
            match s1.memory.loadByte addr with
            | none => .err (.MemoryReadError addr)
            | some mem_value => .ok ({ cycles := 3, op := .Load8 REG_A mem_value }, s1)
        | 0xF2 =>
          let byte := s.registers.get_register .C
          let addr := 0xFF00 + byte
          match s.memory.loadByte addr with
          | none => .err (.MemoryReadError addr)
          | some mem_value => .ok ({ cycles := 3, op := .Load8 REG_A mem_value }, s)
        | 0xFA =>
          match s.fetch_imm16 with
          | .err e => .err e
          | .crash => .crash
          | .ok (addr, s1) =>
            match s1.memory.loadByte addr with
            | none => .err (.MemoryReadError addr)
            | some mem_val => .ok ({ cycles := 4, op := .Load8 REG_A mem_val }, s1)
        | 0xE8 =>
          match s.fetch_byte with
          | .err e => .err e
          | .crash => .crash
          | .ok (b, s1) => .ok ({ cycles := 4, op := .AddStackPointer (toI8 b) }, s1)
        | 0xF8 =>
          match s.fetch_byte with
          | .err e => .err e
          | .crash => .crash
          | .ok (b, s1) =>
            let new_val := (s1.registers.sp + signExtend8To16 b) % 65536
            .ok ({ cycles := 3, op := .Load16 2 new_val }, s1)
        | 0xF9 =>
          .ok ({ cycles := 2,
                 op := .SetStackPointer (s.registers.get_joined_registers .H .L) }, s)
        | 0xF3 => .ok ({ cycles := 1, op := .DisableInterrupts }, s)
        | 0xFB => .ok ({ cycles := 1, op := .EnableInterrupts }, s)
        | _ => .err (.InvalidInstructionError instruction)

/-- `GameBoySystem::load_instruction` (cpu/decode.rs): fetch the opcode,
handle `0x00` (NOP) and `0x10` (STOP, consuming one extra byte of `pc`), then
dispatch on the top two bits. -/
def GameBoySystem.load_instruction (s : GameBoySystem) :
    RResult (Instruction × GameBoySystem) :=
  match s.fetch_byte with
  | .err e => .err e
  | .crash => .crash
  | .ok (instruction, s1) =>
    let block := (instruction &&& 0xC0) >>> 6
    if instruction = 0 then .ok ({ cycles := 1, op := .NOP }, s1)
    else if instruction = 0x10 then
      .ok ({ cycles := 1, op := .Stop },
        { s1 with registers :=
            { s1.registers with pc := (s1.registers.pc + 1) % 65536 } })
    else
      match block with
      | 0 => s1.load_block_0 instruction
      | 1 => s1.load_block_1 instruction
      | 2 => s1.load_block_2 instruction
      | 3 => s1.load_block_3 instruction
      | _ => .crash

/-! ## Claim C6: register-pair packing -/

/-- C6: evaluating the code at the failing input. For every initial register
file, `set_joined_registers(B, C, 0xBEEF)` stores `0xEF` into B and `0xBE`
into C — the high letter of the pair receives the least-significant byte,
the opposite of the claimed `(B, C) = (0xBE, 0xEF)` — while
`get_joined_registers(B, C)` still reads back `0xBEEF`. -/
theorem set_joined_registers_swaps_bytes (c : CpuData) :
    ((c.set_joined_registers .B .C 0xBEEF).get_register .B = 0xEF) ∧
    ((c.set_joined_registers .B .C 0xBEEF).get_register .C = 0xBE) ∧
    ((c.set_joined_registers .B .C 0xBEEF).get_joined_registers .B .C = 0xBEEF) ∧
    (0xEF : Nat) ≠ 0xBE := by
  refine ⟨?_, ?_, ?_, by decide⟩ <;>
    simp [CpuData.set_joined_registers, CpuData.get_register, CpuData.set_register,
      CpuData.get_joined_registers, splitWord, mergeBytes, CpuRegister.idx]

/-- C6 witness: the theorem applied to the all-zero register file. -/
theorem set_joined_registers_swaps_bytes_witness :
    ((CpuData.new.set_joined_registers .B .C 0xBEEF).get_register .B = 0xEF) ∧
    ((CpuData.new.set_joined_registers .B .C 0xBEEF).get_register .C = 0xBE) ∧
    ((CpuData.new.set_joined_registers .B .C 0xBEEF).get_joined_registers .B .C = 0xBEEF) ∧
    (0xEF : Nat) ≠ 0xBE :=
  set_joined_registers_swaps_bytes CpuData.new

/-! ## Claim C7: RTC reconciliation -/

/-- C7: evaluating the code at the failing input. From the non-halted state
with one hour on the clock and zero elapsed wall time, `update_time`
redistributes the hour into 58 minutes and 20 seconds (the source multiplies
`hours` by 3500 instead of 3600), while the spec's decomposition leaves the
registers unchanged. -/
theorem update_time_uses_3500_per_hour :
    RealTimeClock.update_time ⟨0, 0, 1, 0, 0, false⟩ 0 = ⟨20, 58, 0, 0, 0, false⟩ ∧
    RealTimeClock.update_time_spec ⟨0, 0, 1, 0, 0, false⟩ 0 = ⟨0, 0, 1, 0, 0, false⟩ ∧
    (⟨20, 58, 0, 0, 0, false⟩ : RealTimeClock) ≠ ⟨0, 0, 1, 0, 0, false⟩ := by
  decide

/-! ## Claim C3: 16-bit bus loads -/

/-- A cartridge trait object whose every operation fails, for concrete bus
states whose cartridge is never exercised. -/
def nullCartridge : CartridgeOps Unit :=
  { read_rom := fun _ _ => none
    read_mem := fun _ _ => none
    write_rom := fun _ _ _ => none
    write_mem := fun _ _ _ => none }

/-- A concrete bus with work RAM `[0x04, 0x28, 0, ...]`. -/
def c3Bus : DmgMemoryController Unit :=
  { cartridge := ()
    ram := fun i => if i = 0 then 0x04 else if i = 1 then 0x28 else 0
    vram := fun _ => 0
    system := fun _ => 0 }

/-- C3 counterexample: with bytes `0x04` at `0xC000` and `0x28` at `0xC001`,
`load_half_word(0xC000)` returns `0x0428` — the byte at the lower address is
the MOST-significant byte — not the claimed little-endian
`load_byte(addr) | (load_byte(addr+1) << 8) = 0x2804`. -/
theorem load_half_word_big_endian_counterexample :
    DmgMemoryController.load_byte nullCartridge c3Bus 0xC000 = some 0x04 ∧
    DmgMemoryController.load_byte nullCartridge c3Bus 0xC001 = some 0x28 ∧
    DmgMemoryController.load_half_word nullCartridge c3Bus 0xC000 = some 0x0428 ∧
    (0x0428 : Nat) ≠ 0x04 ||| (0x28 <<< 8) := by
  decide

/-- C3 amended: whenever both byte loads succeed (with byte values, as the
`u8` bus returns), `load_half_word(addr)` equals
`(load_byte(addr) << 8) | load_byte(addr+1)`: the byte at the lower address
becomes the MOST-significant byte of the 16-bit result (big-endian). -/
theorem load_half_word_big_endian {σ : Type} (ops : CartridgeOps σ)
    (s : DmgMemoryController σ) (addr x y : Nat)
    (hx : DmgMemoryController.load_byte ops s addr = some x)
    (hy : DmgMemoryController.load_byte ops s ((addr + 1) % 65536) = some y)
    (hx8 : x < 256) (hy8 : y < 256) :
    DmgMemoryController.load_half_word ops s addr = some ((x <<< 8) ||| y) := by
  have hx' : x <<< 8 = x * 256 := by
    rw [Nat.shiftLeft_eq]
  have hy2 : y < 2 ^ 8 := by simpa using hy8
  have hor : (x <<< 8) ||| y = x * 256 + y := by
    have h := Nat.mul_add_lt_is_or hy2 x
    rw [Nat.shiftLeft_eq, Nat.mul_comm]
    simpa [Nat.mul_comm] using h.symm
  have hm : mergeBytes x y = x * 256 + y := by
    unfold mergeBytes
    rw [hx']
    rw [Nat.mod_eq_of_lt (by omega), Nat.add_comm, Nat.mod_eq_of_lt (by omega)]
  simp only [DmgMemoryController.load_half_word, hx, hy]
  rw [hm, hor]

/-- C3 amended witness: the amended theorem at the concrete bus above. -/
theorem load_half_word_big_endian_witness :
    DmgMemoryController.load_byte nullCartridge c3Bus 0xC000 = some 0x04 ∧
    DmgMemoryController.load_byte nullCartridge c3Bus ((0xC000 + 1) % 65536) = some 0x28 ∧
    DmgMemoryController.load_half_word nullCartridge c3Bus 0xC000 =
      some ((0x04 <<< 8) ||| 0x28) :=
  ⟨by decide, by decide,
    load_half_word_big_endian nullCartridge c3Bus 0xC000 0x04 0x28
      (by decide) (by decide) (by decide) (by decide)⟩

/-! ## Claim C4: 16-bit bus stores -/

/-- A concrete bus whose work RAM holds 5 at offset `0x1FFF` while VRAM is
all zero. -/
def c4Bus : DmgMemoryController Unit :=
  { cartridge := ()
    ram := fun i => if i = 0x1FFF then 5 else 0
    vram := fun _ => 0
    system := fun _ => 0 }

/-- C4: evaluating the code at the failing input. `store_half_word(0xDFFF,
0x0102)` first overwrites work RAM at `0xDFFF` (with the HIGH byte `0x01`,
not the claimed low byte), then fails writing `0xE000`; the rollback writes
back the `prev_left` that `store_byte` read out of `self.vram` instead of the
overwritten RAM byte, so the erroring call leaves `ram[0x1FFF] = 0` where it
held 5: the bus state is changed on error. -/
theorem store_half_word_rollback_corrupts_ram :
    c4Bus.ram 0x1FFF = 5 ∧
    (match DmgMemoryController.store_half_word nullCartridge c4Bus 0xDFFF 0x0102 with
      | .error s1 => some (s1.ram 0x1FFF)
      | _ => none) = some 0 ∧
    (some 0 : Option Nat) ≠ some 5 := by
  decide

/-! ## Claim C5: the cartridge factory -/

/-- A ROM image whose header declares cartridge type `0x02` (MBC1+RAM),
ROM size code 0 at `0x148`, and RAM size code 3 at `0x149`. -/
def c5Rom : List Nat := List.replicate 0x147 0 ++ [0x02, 0x00, 0x03]

/-- The RAM capacity (in bytes) of the mapper built by the factory, when an
MBC1 was built. -/
def mbc1RamCapacity : Except LoadCartridgeError GbCartridge → Option Nat
  | .ok (.mbc1 m) => some m.rom.ram.length
  | _ => none

set_option maxRecDepth 8192 in
/-- C5: evaluating the code at the failing input. The factory reads byte
`0x148` (not `0x149`) a second time as the RAM size code, so this MBC1+RAM
cartridge with RAM size code 3 (claim: 4 banks, 32768 bytes) is built with
`memBanks = table(0) = 0`, i.e. zero bytes of cartridge RAM. -/
theorem factory_ram_size_read_from_0x148 :
    c5Rom.get? 0x147 = some 0x02 ∧
    c5Rom.get? 0x148 = some 0x00 ∧
    c5Rom.get? 0x149 = some 0x03 ∧
    mbc1RamCapacity (cartridge_try_from c5Rom) = some 0 ∧
    (0 : Nat) ≠ 4 * 8192 := by
  refine ⟨by decide, by decide, by decide, ?_, by decide⟩
  decide

/-! ## Claim C8: battery-backed RAM round-trip -/

/-- Battery-backed RAM round-trip for the shared `BankedRom` container:
`load_save(s)` succeeds and a subsequent `save()` starts with `s`. -/
theorem bankedRom_save_round_trip (b : BankedRom) (s : List Nat)
    (hb : b.has_battery = true) (hlen : s.length ≤ b.ram.length) :
    ∃ b2, b.load_save s = .ok b2 ∧ b2.save.take s.length = s := by
  refine ⟨{ b with ram := s ++ b.ram.drop s.length }, ?_, ?_⟩
  · unfold BankedRom.load_save
    rw [hb]
    simp [show ¬s.length > b.ram.length from not_lt.mpr hlen]
  · simpa [BankedRom.save] using List.take_left s (b.ram.drop s.length)

/-- C8 counterexample: the MBC2 mapper violates the round-trip as claimed.
The cartridge built by `MBC2::create` with a battery, after
`load_save([0x10])`, saves a buffer starting with `0x00`, not `0x10`
(`load_save` masks each byte to its low nibble). -/
theorem mbc2_save_round_trip_counterexample :
    (match MBC2.create [] 1 0 true with
      | .ok m =>
        match m.load_save [0x10] with
        | .ok m2 => some (m2.save.take 1)
        | .error _ => none
      | .error _ => none) = some [0x00] ∧
    ([0x00] : List Nat) ≠ [0x10] := by
  constructor
  · rfl
  · decide

/-- C8 amended: the round-trip holds as claimed for the three `BankedRom`-backed
mappers (`RomOnlyCartridge`, `MBC1`, `MBC3`), while for `MBC2` the saved
buffer starts with `s` masked byte-wise to its low nibble (`s[i] & 0x0F`). -/
theorem save_round_trip_per_mapper :
    (∀ (b : BankedRom) (s : List Nat), b.has_battery = true →
      s.length ≤ b.ram.length →
      ∃ b2, b.load_save s = .ok b2 ∧ b2.save.take s.length = s) ∧
    (∀ (c : RomOnlyCartridge) (r s : List Nat), c.has_battery = true →
      c.ram = some r → s.length ≤ r.length →
      ∃ c2, c.load_save s = .ok c2 ∧ c2.save.take s.length = s) ∧
    (∀ (m : MBC1) (s : List Nat), m.rom.has_battery = true →
      s.length ≤ m.rom.ram.length →
      ∃ m2, m.load_save s = .ok m2 ∧ m2.save.take s.length = s) ∧
    (∀ (m : MBC3) (s : List Nat), m.rom.has_battery = true →
      s.length ≤ m.rom.ram.length →
      ∃ m2, m.load_save s = .ok m2 ∧ m2.save.take s.length = s) ∧
    (∀ (m : MBC2) (s : List Nat), m.has_battery = true → s.length ≤ 512 →
      ∃ m2, m.load_save s = .ok m2 ∧
        m2.save.take s.length = s.map (fun x => x &&& 0x0F)) := by
  refine ⟨bankedRom_save_round_trip, ?_, ?_, ?_, ?_⟩
  · intro c r s hb hr hlen
    refine ⟨{ c with ram := some (s ++ r.drop s.length) }, ?_, ?_⟩
    · unfold RomOnlyCartridge.load_save
      rw [hb, hr]
      simp [show ¬r.length < s.length from not_lt.mpr hlen]
    · simpa [RomOnlyCartridge.save] using List.take_left s (r.drop s.length)
  · intro m s hb hlen
    obtain ⟨b2, hload, hsave⟩ := bankedRom_save_round_trip m.rom s hb hlen
    refine ⟨{ m with rom := b2 }, ?_, ?_⟩
    · unfold MBC1.load_save
      rw [hload]
    · simpa [MBC1.save] using hsave
  · intro m s hb hlen
    obtain ⟨b2, hload, hsave⟩ := bankedRom_save_round_trip m.rom s hb hlen
    refine ⟨{ m with rom := b2 }, ?_, ?_⟩
    · unfold MBC3.load_save
      rw [hload]
    · simpa [MBC3.save] using hsave
  · intro m s hb hlen
    refine ⟨{ m with
      ram := (s.map fun x => x &&& 0x0F) ++ m.ram.drop s.length }, ?_, ?_⟩
    · unfold MBC2.load_save
      rw [hb]
      simp [show ¬s.length > 512 from not_lt.mpr hlen]
    · have := List.take_left (s.map fun x => x &&& 0x0F) (m.ram.drop s.length)
      simpa [MBC2.save, List.length_map] using this

/-- C8 amended witness: the per-mapper round-trip instantiated with concrete
two-byte mappers and the save buffer `[0x17]`. -/
theorem save_round_trip_per_mapper_witness :
    (∃ b2, BankedRom.load_save
        { rom := [], rom_bank := 1, ram := [1, 2], ram_bank := 0,
          has_battery := true, manual_bank_logic := false } [0x17] = .ok b2 ∧
      b2.save.take 1 = [0x17]) ∧
    (∃ c2, RomOnlyCartridge.load_save
        { rom := [], ram := some [1, 2], has_battery := true } [0x17] = .ok c2 ∧
      c2.save.take 1 = [0x17]) ∧
    (∃ m2, MBC2.load_save
        { rom := { rom := [], rom_bank := 1, ram := [], ram_bank := 0,
                   has_battery := false, manual_bank_logic := false },
          ram := List.replicate 512 0, ram_enabled := false,
          has_battery := true } [0x17] = .ok m2 ∧
      m2.save.take 1 = [0x17].map (fun x => x &&& 0x0F)) :=
  ⟨save_round_trip_per_mapper.1 _ [0x17] rfl (by decide),
   save_round_trip_per_mapper.2.1 _ [1, 2] [0x17] rfl rfl (by decide),
   save_round_trip_per_mapper.2.2.2.2 _ [0x17] rfl (by decide)⟩

/-! ## Claim C10: the MBC2 half-byte RAM invariant -/

/-- The MBC2 states reachable through the mapper's public operations:
construction, ROM-region control writes, RAM writes and save loading. -/
inductive MBC2.Reachable : MBC2 → Prop where
  | create (rom : List Nat) (rom_banks ram_banks : Nat) (hb : Bool) (m : MBC2) :
      MBC2.create rom rom_banks ram_banks hb = .ok m → MBC2.Reachable m
  | write_rom (m : MBC2) (address data : Nat) (m2 : MBC2) :
      MBC2.Reachable m → m.write_rom address data = some m2 → MBC2.Reachable m2
  | write_mem (m : MBC2) (address data prev : Nat) (m2 : MBC2) :
      MBC2.Reachable m → m.write_mem address data = .ok (prev, m2) → MBC2.Reachable m2
  | load_save (m : MBC2) (s : List Nat) (m2 : MBC2) :
      MBC2.Reachable m → m.load_save s = .ok m2 → MBC2.Reachable m2

/-- Every byte of the RAM of a reachable MBC2 state has a zero high nibble. -/
theorem mbc2_reachable_ram_nibble {m : MBC2} (h : MBC2.Reachable m) :
    ∀ x ∈ m.ram, x ≤ 0x0F := by
  induction h with
  | create rom rom_banks ram_banks hb m hm =>
    intro x hx
    unfold MBC2.create at hm
    cases hnew : BankedRom.new rom rom_banks 0 false false with
    | error e => rw [hnew] at hm; exact absurd hm (by simp)
    | ok b =>
      rw [hnew] at hm
      injection hm with hm
      rw [← hm] at hx
      simp only [List.eq_of_mem_replicate hx]
      decide
  | write_rom m address data m2 _ hw ih =>
    intro x hx
    unfold MBC2.write_rom at hw
    split at hw
    · exact absurd hw (by simp)
    · split at hw
      · injection hw with hw; exact ih x (hw ▸ hx)
      · split at hw
        · injection hw with hw
          rw [← hw] at hx
          exact ih x hx
        · injection hw with hw
          rw [← hw] at hx
          exact ih x hx
  | write_mem m address data prev m2 _ hw ih =>
    intro x hx
    simp only [MBC2.write_mem] at hw
    split at hw
    · injection hw with hw
      cases hw
      exact ih x hx
    · split at hw
      · exact absurd hw (by simp)
      · injection hw with hw
        cases hw
        rcases List.mem_or_eq_of_mem_set hx with hmem | hval
        · exact ih x hmem
        · rw [hval]; exact Nat.and_le_right
  | load_save m s m2 _ hw ih =>
    intro x hx
    unfold MBC2.load_save at hw
    split at hw
    · exact absurd hw (by simp)
    · split at hw
      · exact absurd hw (by simp)
      · injection hw with hw
        rw [← hw] at hx
        rcases List.mem_append.mp hx with hmem | hmem
        · obtain ⟨a, _, ha⟩ := List.mem_map.mp hmem
          rw [← ha]; exact Nat.and_le_right
        · exact ih x (List.mem_of_mem_drop hmem)

/-- C10: in every reachable MBC2 state the 512-byte RAM holds only values at
most `0x0F`; consequently `read_mem` with RAM enabled only returns values at
most `0x0F`, and `write_mem` with RAM enabled only reports previous bytes at
most `0x0F`. -/
theorem mbc2_ram_high_nibble_zero {m : MBC2} (h : MBC2.Reachable m) :
    (∀ x ∈ m.ram, x ≤ 0x0F) ∧
    (m.ram_enabled = true → ∀ a v, m.read_mem a = some v → v ≤ 0x0F) ∧
    (m.ram_enabled = true →
      ∀ a d p m2, m.write_mem a d = .ok (p, m2) → p ≤ 0x0F) := by
  have hram := mbc2_reachable_ram_nibble h
  refine ⟨hram, ?_, ?_⟩
  · intro he a v hv
    simp only [MBC2.read_mem] at hv
    rw [he, if_pos rfl] at hv
    exact hram v (List.get?_mem hv)
  · intro he a d p m2 hw
    simp only [MBC2.write_mem] at hw
    split at hw
    · rename_i hne
      exact absurd he hne
    · split at hw
      · exact absurd hw (by simp)
      · rename_i old hold
        injection hw with hw
        cases hw
        exact hram _ (List.get?_mem hold)

/-- The MBC2 state built by `create` from an empty ROM, used as the C10
witness input. -/
def mbc2Witness : MBC2 :=
  { rom := { rom := List.replicate 16384 0, rom_bank := 1, ram := [],
             ram_bank := 0, has_battery := false, manual_bank_logic := false }
    ram := List.replicate 512 0
    ram_enabled := false
    has_battery := true }

/-- C10 witness: the invariant theorem applied to a state freshly built by
`MBC2::create`. -/
theorem mbc2_ram_high_nibble_zero_witness :
    MBC2.Reachable mbc2Witness ∧
    ((∀ x ∈ mbc2Witness.ram, x ≤ 0x0F) ∧
     (mbc2Witness.ram_enabled = true →
       ∀ a v, mbc2Witness.read_mem a = some v → v ≤ 0x0F) ∧
     (mbc2Witness.ram_enabled = true →
       ∀ a d p m2, mbc2Witness.write_mem a d = .ok (p, m2) → p ≤ 0x0F)) :=
  ⟨MBC2.Reachable.create [] 1 0 true mbc2Witness rfl,
   mbc2_ram_high_nibble_zero (MBC2.Reachable.create [] 1 0 true mbc2Witness rfl)⟩

/-! ## Claims C1 and C2: block-3 decode at concrete inputs -/

/-- A concrete bus holding the opcode under test at address 0, `0x42` at every
other address, and `0x4242` for every 16-bit load. -/
def decodeBus (opc : Nat) : Bus :=
  { loadByte := fun a => some (if a = 0 then opc else 0x42)
    loadHalfWord := fun _ => some 0x4242 }

/-- A fresh system (all registers and flags zero, `pc = 0`) over `decodeBus`. -/
def decodeSys (opc : Nat) : GameBoySystem :=
  { registers := CpuData.new, memory := decodeBus opc }

/-- The decoded instruction of a decoder result, discarding the state. -/
def instructionOf : RResult (Instruction × GameBoySystem) → Option Instruction
  | .ok (i, _) => some i
  | _ => none

/-- The error of a decoder result, if any. -/
def errorOf : RResult (Instruction × GameBoySystem) → Option GameBoySystemError
  | .err e => some e
  | _ => none

/-- C1: evaluating the decoder at the failing inputs. With all flags zero,
A = C = 0, immediate byte `0x42`, immediate word `0x4242` and every bus byte
`0x42`, the six opcodes 0xE0/0xE2/0xEA/0xF0/0xF2/0xFA decode as conditional
RET / JP / NOP — the `instruction & 1 == 0` guard in `load_block_3` routes
every even block-3 opcode into `load_block_3_cond`, so the explicit match
arms for these opcodes (which do produce the claimed Store8/Load8 decodes)
are unreachable — and none of them matches the claim's decode. -/
theorem block3_even_opcodes_decode_as_conditionals :
    instructionOf (decodeSys 0xE0).load_instruction = some ⟨5, .Return false⟩ ∧
    instructionOf (decodeSys 0xE2).load_instruction = some ⟨4, .Jump 0x4242⟩ ∧
    instructionOf (decodeSys 0xEA).load_instruction = some ⟨3, .NOP⟩ ∧
    instructionOf (decodeSys 0xF0).load_instruction = some ⟨5, .Return false⟩ ∧
    instructionOf (decodeSys 0xF2).load_instruction = some ⟨4, .Jump 0x4242⟩ ∧
    instructionOf (decodeSys 0xFA).load_instruction = some ⟨3, .NOP⟩ ∧
    instructionOf (decodeSys 0xE0).load_instruction ≠ some ⟨3, .Store8 0xFF42 0⟩ ∧
    instructionOf (decodeSys 0xE2).load_instruction ≠ some ⟨2, .Store8 0xFF00 0⟩ ∧
    instructionOf (decodeSys 0xEA).load_instruction ≠ some ⟨4, .Store8 0x4242 0⟩ ∧
    instructionOf (decodeSys 0xF0).load_instruction ≠ some ⟨3, .Load8 0 0x42⟩ ∧
    instructionOf (decodeSys 0xF2).load_instruction ≠ some ⟨3, .Load8 0 0x42⟩ ∧
    instructionOf (decodeSys 0xFA).load_instruction ≠ some ⟨4, .Load8 0 0x42⟩ := by
  decide

/-- C2: evaluating the decoder at the failing inputs. Of the eleven
officially-invalid opcodes, the four even ones (0xE4, 0xEC, 0xF4, 0xFC) are
captured by the same `instruction & 1 == 0` guard and decode as conditional
CALL / NOP instead of returning `InvalidInstruction`; the seven odd ones do
return `InvalidInstruction(op)` as claimed. -/
theorem invalid_even_opcodes_decode_as_cond_calls :
    instructionOf (decodeSys 0xE4).load_instruction = some ⟨6, .Call 0x4242⟩ ∧
    instructionOf (decodeSys 0xEC).load_instruction = some ⟨3, .NOP⟩ ∧
    instructionOf (decodeSys 0xF4).load_instruction = some ⟨6, .Call 0x4242⟩ ∧
    instructionOf (decodeSys 0xFC).load_instruction = some ⟨3, .NOP⟩ ∧
    errorOf (decodeSys 0xE4).load_instruction ≠ some (.InvalidInstructionError 0xE4) ∧
    errorOf (decodeSys 0xEC).load_instruction ≠ some (.InvalidInstructionError 0xEC) ∧
    errorOf (decodeSys 0xF4).load_instruction ≠ some (.InvalidInstructionError 0xF4) ∧
    errorOf (decodeSys 0xFC).load_instruction ≠ some (.InvalidInstructionError 0xFC) ∧
    errorOf (decodeSys 0xD3).load_instruction = some (.InvalidInstructionError 0xD3) ∧
    errorOf (decodeSys 0xDB).load_instruction = some (.InvalidInstructionError 0xDB) ∧
    errorOf (decodeSys 0xDD).load_instruction = some (.InvalidInstructionError 0xDD) ∧
    errorOf (decodeSys 0xE3).load_instruction = some (.InvalidInstructionError 0xE3) ∧
    errorOf (decodeSys 0xEB).load_instruction = some (.InvalidInstructionError 0xEB) ∧
    errorOf (decodeSys 0xED).load_instruction = some (.InvalidInstructionError 0xED) ∧
    errorOf (decodeSys 0xFD).load_instruction = some (.InvalidInstructionError 0xFD) := by
  decide

/-! ## Claim C9: decode safety for every valid opcode -/

/-- Whether a decoder result is a successful decode. -/
def RResult.isOk {α : Type} : RResult α → Bool
  | .ok _ => true
  | _ => false

/-- Whether a decoder result is a `MemoryReadError`. -/
def RResult.isMemRead {α : Type} : RResult α → Bool
  | .err (.MemoryReadError _) => true
  | _ => false

/-- The eleven officially-invalid opcodes named by the spec. -/
def invalidOpcodes : List Nat :=
  [0xD3, 0xDB, 0xDD, 0xE3, 0xE4, 0xEB, 0xEC, 0xED, 0xF4, 0xFC, 0xFD]

/-- Safety of a decoder result over the bus of `s`: the result is a successful
decode or a `MemoryReadError` (never `InvalidInstruction`, a `MemoryWrite`
error, or a panic), and when every byte and half-word fetch on the bus
succeeds the result is a successful decode. -/
def DecodeSafe (s : GameBoySystem) (r : RResult (Instruction × GameBoySystem)) : Prop :=
  (r.isOk = true ∨ r.isMemRead = true) ∧
  ((∀ a, (s.memory.loadByte a).isSome = true) →
   (∀ a, (s.memory.loadHalfWord a).isSome = true) →
   r.isOk = true)

theorem decodeSafe_of_ok {s : GameBoySystem} {r : RResult (Instruction × GameBoySystem)}
    {x : Instruction × GameBoySystem} (h : r = .ok x) : DecodeSafe s r := by
  subst h; exact ⟨Or.inl rfl, fun _ _ => rfl⟩

theorem decodeSafe_of_fetch_none {s : GameBoySystem}
    {r : RResult (Instruction × GameBoySystem)} {a : Nat}
    (h : r = .err (.MemoryReadError a)) (hn : s.memory.loadByte a = none) :
    DecodeSafe s r := by
  subst h
  refine ⟨Or.inr rfl, fun hbt _ => ?_⟩
  have := hbt a
  rw [hn] at this
  cases this

theorem decodeSafe_of_half_none {s : GameBoySystem}
    {r : RResult (Instruction × GameBoySystem)} {a : Nat}
    (h : r = .err (.MemoryReadError a)) (hn : s.memory.loadHalfWord a = none) :
    DecodeSafe s r := by
  subst h
  refine ⟨Or.inr rfl, fun _ hht => ?_⟩
  have := hht a
  rw [hn] at this
  cases this

theorem decodeSafe_of_eq_mem {s s1 : GameBoySystem}
    {r : RResult (Instruction × GameBoySystem)} (h : s1.memory = s.memory)
    (hd : DecodeSafe s1 r) : DecodeSafe s r := by
  unfold DecodeSafe at hd ⊢
  rw [← h]
  exact hd

theorem fetch_byte_cases (s : GameBoySystem) :
    (s.memory.loadByte s.registers.pc = none ∧
      s.fetch_byte = .err (.MemoryReadError s.registers.pc)) ∨
    (∃ b s1, s.memory.loadByte s.registers.pc = some b ∧
      s.fetch_byte = .ok (b, s1) ∧ s1.memory = s.memory) := by
  cases h : s.memory.loadByte s.registers.pc with
  | none =>
    refine .inl ⟨rfl, ?_⟩
    unfold GameBoySystem.fetch_byte
    rw [h]
  | some b =>
    refine .inr ⟨b,
      { s with registers := { s.registers with pc := (s.registers.pc + 1) % 65536 } },
      rfl, ?_, rfl⟩
    unfold GameBoySystem.fetch_byte
    rw [h]

theorem fetch_imm16_cases (s : GameBoySystem) :
    (s.memory.loadHalfWord s.registers.pc = none ∧
      s.fetch_imm16 = .err (.MemoryReadError s.registers.pc)) ∨
    (∃ v s1, s.fetch_imm16 = .ok (v, s1) ∧ s1.memory = s.memory) := by
  cases h : s.memory.loadHalfWord s.registers.pc with
  | none =>
    refine .inl ⟨rfl, ?_⟩
    unfold GameBoySystem.fetch_imm16
    rw [h]
  | some v =>
    refine .inr ⟨v,
      { s with registers := { s.registers with pc := (s.registers.pc + 2) % 65536 } },
      ?_, rfl⟩
    unfold GameBoySystem.fetch_imm16
    rw [h]

theorem get_r8_cases (s : GameBoySystem) (reg : Nat) :
    (∃ v, s.get_r8 reg = .ok v) ∨
    (∃ a, s.memory.loadByte a = none ∧ s.get_r8 reg = .err (.MemoryReadError a)) := by
  simp only [GameBoySystem.get_r8]
  by_cases h6 : reg = 6
  · rw [if_pos h6]
    cases h : s.memory.loadByte (s.registers.get_joined_registers .H .L) with
    | none => exact .inr ⟨_, h, rfl⟩
    | some v => exact .inl ⟨v, rfl⟩
  · rw [if_neg h6]
    exact .inl ⟨_, rfl⟩

theorem get_cond_flag_ok (s : GameBoySystem) (c : Nat) (h : c < 4) :
    ∃ bv, s.get_cond_flag c = .ok bv := by
  unfold GameBoySystem.get_cond_flag
  rcases (by omega : c = 0 ∨ c = 1 ∨ c = 2 ∨ c = 3) with h | h | h | h <;>
    subst h <;> exact ⟨_, rfl⟩

theorem get_r16_ok (s : GameBoySystem) (reg : Nat) (h : reg ≤ 3) :
    ∃ v, s.get_r16 reg = .ok v := by
  unfold GameBoySystem.get_r16
  rcases (by omega : reg = 0 ∨ reg = 1 ∨ reg = 2 ∨ reg = 3) with h | h | h | h <;>
    subst h <;> exact ⟨_, rfl⟩

theorem get_r16_mem_ok (s : GameBoySystem) (reg : Nat) (h : reg ≤ 3) :
    ∃ v s1, s.get_r16_mem reg = .ok (v, s1) ∧ s1.memory = s.memory := by
  unfold GameBoySystem.get_r16_mem
  rcases (by omega : reg = 0 ∨ reg = 1 ∨ reg = 2 ∨ reg = 3) with h | h | h | h <;>
    subst h <;> exact ⟨_, _, rfl, rfl⟩

theorem load_prefixed_safe (s : GameBoySystem)
    (hwf : ∀ a v, s.memory.loadByte a = some v → v < 256) :
    DecodeSafe s s.load_prefixed := by
  rcases fetch_byte_cases s with ⟨hn, hf⟩ | ⟨b, s1, hb, hf, hmem⟩
  · refine decodeSafe_of_fetch_none ?_ hn
    unfold GameBoySystem.load_prefixed
    rw [hf]
  · have hb256 : b < 256 := hwf _ _ hb
    unfold GameBoySystem.load_prefixed
    rw [hf]
    interval_cases b <;> exact decodeSafe_of_ok rfl

theorem load_block_3_alu_safe (s : GameBoySystem) (i : Nat) :
    DecodeSafe s (s.load_block_3_alu i) := by
  rcases fetch_byte_cases s with ⟨hn, hf⟩ | ⟨b, s1, hb, hf, hmem⟩
  · refine decodeSafe_of_fetch_none ?_ hn
    unfold GameBoySystem.load_block_3_alu
    rw [hf]
  · have h8 : (i >>> 3) &&& 7 < 8 := Nat.lt_succ_of_le Nat.and_le_right
    unfold GameBoySystem.load_block_3_alu
    rw [hf]
    rcases (by omega :
        (i >>> 3) &&& 7 = 0 ∨ (i >>> 3) &&& 7 = 1 ∨ (i >>> 3) &&& 7 = 2 ∨
        (i >>> 3) &&& 7 = 3 ∨ (i >>> 3) &&& 7 = 4 ∨ (i >>> 3) &&& 7 = 5 ∨
        (i >>> 3) &&& 7 = 6 ∨ (i >>> 3) &&& 7 = 7) with
      h | h | h | h | h | h | h | h <;> rw [h] <;> exact decodeSafe_of_ok rfl

theorem load_block_3_cond_safe (s : GameBoySystem) (i : Nat)
    (hf3 : i &&& 7 = 0 ∨ i &&& 7 = 2 ∨ i &&& 7 = 4) :
    DecodeSafe s (s.load_block_3_cond i) := by
  have hc : (i >>> 3) &&& 3 < 4 := Nat.lt_succ_of_le Nat.and_le_right
  obtain ⟨bv, hflag⟩ := get_cond_flag_ok s ((i >>> 3) &&& 3) hc
  simp only [GameBoySystem.load_block_3_cond, hflag]
  rcases hf3 with h | h | h <;> rw [h] <;> cases bv <;>
    first
    | exact decodeSafe_of_ok rfl
    | (rcases fetch_imm16_cases s with ⟨hn, hf⟩ | ⟨v, s1, hf, hmem⟩ <;> rw [hf] <;>
        first
        | exact decodeSafe_of_half_none rfl hn
        | exact decodeSafe_of_ok rfl)

theorem load_jump_relative_safe (s : GameBoySystem) (i : Nat) :
    DecodeSafe s (s.load_jump_relative i) := by
  rcases fetch_byte_cases s with ⟨hn, hf⟩ | ⟨b, s1, hb, hf, hmem⟩
  · refine decodeSafe_of_fetch_none ?_ hn
    unfold GameBoySystem.load_jump_relative
    rw [hf]
  · have hc : (i &&& 0x18) >>> 3 < 4 := by
      have h18 : i &&& 0x18 ≤ 0x18 := Nat.and_le_right
      omega
    obtain ⟨bv, hflag⟩ := get_cond_flag_ok s1 ((i &&& 0x18) >>> 3) hc
    simp only [GameBoySystem.load_jump_relative, hf, hflag]
    by_cases hj : i &&& 0x20 = 0
    · rw [if_pos hj]
      exact decodeSafe_of_ok rfl
    · rw [if_neg hj]
      cases bv <;> exact decodeSafe_of_ok rfl

theorem load_block_0_16bit_safe (s : GameBoySystem) (i : Nat)
    (h4 : i &&& 0xF = 1 ∨ i &&& 0xF = 2 ∨ i &&& 0xF = 3 ∨ i &&& 0xF = 8 ∨
      i &&& 0xF = 9 ∨ i &&& 0xF = 0xA ∨ i &&& 0xF = 0xB) :
    DecodeSafe s (s.load_block_0_16bit i) := by
  have hreg : (i &&& 0x18) >>> 3 ≤ 3 := by
    have h18 : i &&& 0x18 ≤ 0x18 := Nat.and_le_right
    omega
  rcases h4 with h | h | h | h | h | h | h
  · simp only [GameBoySystem.load_block_0_16bit, h]
    rcases fetch_imm16_cases s with ⟨hn, hf⟩ | ⟨v, s1, hf, hmem⟩ <;> rw [hf]
    · exact decodeSafe_of_half_none rfl hn
    · exact decodeSafe_of_ok rfl
  · obtain ⟨v, s1, hg, hmem⟩ := get_r16_mem_ok s ((i &&& 0x18) >>> 3) hreg
    simp only [GameBoySystem.load_block_0_16bit, h, hg]
    exact decodeSafe_of_ok rfl
  · simp only [GameBoySystem.load_block_0_16bit, h]
    exact decodeSafe_of_ok rfl
  · simp only [GameBoySystem.load_block_0_16bit, h]
    rcases fetch_imm16_cases s with ⟨hn, hf⟩ | ⟨v, s1, hf, hmem⟩ <;> rw [hf]
    · exact decodeSafe_of_half_none rfl hn
    · exact decodeSafe_of_ok rfl
  · obtain ⟨v, hg⟩ := get_r16_ok s ((i &&& 0x18) >>> 3) hreg
    simp only [GameBoySystem.load_block_0_16bit, h, hg]
    exact decodeSafe_of_ok rfl
  · obtain ⟨v, s1, hg, hmem⟩ := get_r16_mem_ok s ((i &&& 0x18) >>> 3) hreg
    simp only [GameBoySystem.load_block_0_16bit, h, hg]
    cases hload : s1.memory.loadByte v with
    | none =>
      rw [hmem] at hload
      exact decodeSafe_of_fetch_none rfl hload
    | some w =>
      exact decodeSafe_of_ok rfl
  · simp only [GameBoySystem.load_block_0_16bit, h]
    exact decodeSafe_of_ok rfl

set_option maxRecDepth 131072 in
theorem load_block_0_safe (s : GameBoySystem) (i : Nat)
    (hi : i &&& 0xC0 = 0) (hne : 1 ≤ i) (hlt : i < 256) :
    DecodeSafe s (s.load_block_0 i) := by
  simp only [GameBoySystem.load_block_0, hi]
  rw [if_neg (by simp)]
  by_cases hjr : i &&& 7 = 0 ∧ ¬i &&& 0xF0 = 0
  · rw [if_pos hjr]
    exact load_jump_relative_safe s i
  · rw [if_neg hjr]
    by_cases hlt4 : i &&& 7 < 4
    · rw [if_pos hlt4]
      refine load_block_0_16bit_safe s i ?_
      exact (by decide : ∀ j, j < 256 →
          (j &&& 0xC0 = 0 ∧ 1 ≤ j ∧ j &&& 7 < 4 ∧ ¬(j &&& 7 = 0 ∧ ¬j &&& 0xF0 = 0)) →
          (j &&& 0xF = 1 ∨ j &&& 0xF = 2 ∨ j &&& 0xF = 3 ∨ j &&& 0xF = 8 ∨
            j &&& 0xF = 9 ∨ j &&& 0xF = 0xA ∨ j &&& 0xF = 0xB))
        i hlt ⟨hi, hne, hlt4, hjr⟩
    · rw [if_neg hlt4]
      by_cases h7 : i &&& 7 = 7
      · rw [if_pos h7]
        rcases (by decide : ∀ j, j < 256 → (j &&& 0xC0 = 0 ∧ j &&& 7 = 7) →
            (j = 0x07 ∨ j = 0x0F ∨ j = 0x17 ∨ j = 0x1F ∨ j = 0x27 ∨ j = 0x2F ∨
              j = 0x37 ∨ j = 0x3F)) i hlt ⟨hi, h7⟩ with
          h | h | h | h | h | h | h | h <;> subst h <;> exact decodeSafe_of_ok rfl
      · rw [if_neg h7]
        have h8 : i &&& 7 < 8 := Nat.lt_succ_of_le Nat.and_le_right
        rcases (by omega : i &&& 7 = 4 ∨ i &&& 7 = 5 ∨ i &&& 7 = 6) with h | h | h <;>
          rw [h]
        · exact decodeSafe_of_ok rfl
        · exact decodeSafe_of_ok rfl
        · rcases fetch_byte_cases s with ⟨hn, hf⟩ | ⟨b, s1, hb, hf, hmem⟩ <;> rw [hf]
          · exact decodeSafe_of_fetch_none rfl hn
          · exact decodeSafe_of_ok rfl

theorem load_block_1_safe (s : GameBoySystem) (i : Nat) (hi : i &&& 0xC0 = 0x40) :
    DecodeSafe s (s.load_block_1 i) := by
  simp only [GameBoySystem.load_block_1, hi]
  rw [if_neg (by simp)]
  by_cases hsd : i &&& 7 = (i >>> 3) &&& 7 ∧ i &&& 7 = REG_MEM_READ
  · rw [if_pos hsd]
    exact decodeSafe_of_ok rfl
  · rw [if_neg hsd]
    rcases get_r8_cases s (i &&& 7) with ⟨v, hv⟩ | ⟨a, ha, hv⟩ <;> rw [hv]
    · exact decodeSafe_of_ok rfl
    · exact decodeSafe_of_fetch_none rfl ha

set_option maxRecDepth 131072 in
theorem load_block_2_safe (s : GameBoySystem) (i : Nat)
    (hi : i &&& 0xC0 = 0x80) (hlt : i < 256) :
    DecodeSafe s (s.load_block_2 i) := by
  have hop : 0x10 ≤ i >>> 3 ∧ i >>> 3 ≤ 0x17 :=
    (by decide : ∀ j, j < 256 → j &&& 0xC0 = 0x80 → 0x10 ≤ j >>> 3 ∧ j >>> 3 ≤ 0x17)
      i hlt hi
  simp only [GameBoySystem.load_block_2, hi]
  rw [if_neg (by simp)]
  rcases get_r8_cases s (i &&& 7) with ⟨v, hv⟩ | ⟨a, ha, hv⟩ <;> rw [hv]
  · rcases (by omega :
        i >>> 3 = 0x10 ∨ i >>> 3 = 0x11 ∨ i >>> 3 = 0x12 ∨ i >>> 3 = 0x13 ∨
        i >>> 3 = 0x14 ∨ i >>> 3 = 0x15 ∨ i >>> 3 = 0x16 ∨ i >>> 3 = 0x17) with
      h | h | h | h | h | h | h | h <;> rw [h] <;> exact decodeSafe_of_ok rfl
  · exact decodeSafe_of_fetch_none rfl ha

set_option maxRecDepth 131072 in
set_option synthInstance.maxSize 4096 in
set_option synthInstance.maxHeartbeats 1000000 in
theorem load_block_3_safe (s : GameBoySystem) (i : Nat)
    (hwf : ∀ a v, s.memory.loadByte a = some v → v < 256)
    (hi : i &&& 0xC0 = 0xC0) (hlt : i < 256)
    (hinv : i ∉ [0xD3, 0xDB, 0xDD, 0xE3, 0xEB, 0xED, 0xFD]) :
    DecodeSafe s (s.load_block_3 i) := by
  simp only [GameBoySystem.load_block_3, hi]
  rw [if_neg (by simp)]
  by_cases hcb : i = 0xCB
  · rw [if_pos hcb]
    exact load_prefixed_safe s hwf
  · rw [if_neg hcb]
    by_cases h6 : i &&& 7 = 6
    · rw [if_pos h6]
      exact load_block_3_alu_safe s i
    · rw [if_neg h6]
      by_cases h7 : i &&& 7 = 7 ∧ ¬i &&& 2 = 0
      · rw [if_pos h7]
        exact decodeSafe_of_ok rfl
      · rw [if_neg h7]
        by_cases hst : i &&& 0xF = 1 ∨ i &&& 0xF = 5
        · rw [if_pos hst]
          rcases hst with h | h <;> simp only [load_block_3_stack, h] <;>
            exact decodeSafe_of_ok rfl
        · rw [if_neg hst]
          by_cases hev : i &&& 1 = 0
          · rw [if_pos hev]
            refine load_block_3_cond_safe s i ?_
            exact (by decide : ∀ j, j < 256 →
                (j &&& 0xC0 = 0xC0 ∧ ¬j &&& 7 = 6 ∧ j &&& 1 = 0) →
                (j &&& 7 = 0 ∨ j &&& 7 = 2 ∨ j &&& 7 = 4)) i hlt ⟨hi, h6, hev⟩
          · rw [if_neg hev]
            rcases (by decide : ∀ j, j < 256 →
                (j &&& 0xC0 = 0xC0 ∧ ¬j = 0xCB ∧ ¬j &&& 7 = 6 ∧
                  ¬(j &&& 7 = 7 ∧ ¬j &&& 2 = 0) ∧
                  ¬(j &&& 0xF = 1 ∨ j &&& 0xF = 5) ∧ ¬j &&& 1 = 0) →
                (j = 0xC3 ∨ j = 0xC9 ∨ j = 0xCD ∨ j = 0xD3 ∨ j = 0xD9 ∨
                  j = 0xDB ∨ j = 0xDD ∨ j = 0xE3 ∨ j = 0xE9 ∨ j = 0xEB ∨
                  j = 0xED ∨ j = 0xF3 ∨ j = 0xF9 ∨ j = 0xFB ∨ j = 0xFD))
              i hlt ⟨hi, hcb, h6, h7, hst, hev⟩ with
              h | h | h | h | h | h | h | h | h | h | h | h | h | h | h <;> subst h <;>
              first
              | exact absurd (by decide) hinv
              | exact decodeSafe_of_ok rfl
              | (rcases fetch_imm16_cases s with ⟨hn, hf⟩ | ⟨v, s1, hf, hmem⟩ <;>
                  rw [hf] <;>
                  first
                  | exact decodeSafe_of_half_none rfl hn
                  | exact decodeSafe_of_ok rfl)

set_option maxRecDepth 131072 in
/-- C9: for every opcode outside the eleven-element invalid set, for every
register state and every byte-valued bus, `load_instruction` either decodes
successfully or fails with a `MemoryReadError` (it never returns
`InvalidInstruction`, never reports any other error, and never reaches a
panic), and on a bus where every byte and half-word fetch succeeds it always
decodes successfully. -/
theorem load_instruction_decodes_valid_opcodes (s : GameBoySystem) (op : Nat)
    (hwf : ∀ a v, s.memory.loadByte a = some v → v < 256)
    (hop : s.memory.loadByte s.registers.pc = some op)
    (hinv : op ∉ invalidOpcodes) :
    ((s.load_instruction).isOk = true ∨ (s.load_instruction).isMemRead = true) ∧
    ((∀ a, (s.memory.loadByte a).isSome = true) →
     (∀ a, (s.memory.loadHalfWord a).isSome = true) →
     (s.load_instruction).isOk = true) := by
  show DecodeSafe s s.load_instruction
  have h256 : op < 256 := hwf _ _ hop
  rcases fetch_byte_cases s with ⟨hn, hf⟩ | ⟨b, s1, hb, hf, hmem⟩
  · rw [hop] at hn
    cases hn
  · have hbop : b = op := by
      rw [hb] at hop
      exact Option.some.inj hop
    subst hbop
    have hwf1 : ∀ a v, s1.memory.loadByte a = some v → v < 256 := by
      rw [hmem]; exact hwf
    simp only [GameBoySystem.load_instruction, hf]
    by_cases h0 : b = 0
    · rw [if_pos h0]
      exact decodeSafe_of_ok rfl
    · rw [if_neg h0]
      by_cases h10 : b = 0x10
      · rw [if_pos h10]
        exact decodeSafe_of_ok rfl
      · rw [if_neg h10]
        rcases (by decide : ∀ j, j < 256 →
            (j &&& 0xC0) >>> 6 = 0 ∧ j &&& 0xC0 = 0 ∨
            (j &&& 0xC0) >>> 6 = 1 ∧ j &&& 0xC0 = 0x40 ∨
            (j &&& 0xC0) >>> 6 = 2 ∧ j &&& 0xC0 = 0x80 ∨
            (j &&& 0xC0) >>> 6 = 3 ∧ j &&& 0xC0 = 0xC0) b h256 with
          ⟨hblk, hb0⟩ | ⟨hblk, hb0⟩ | ⟨hblk, hb0⟩ | ⟨hblk, hb0⟩ <;> rw [hblk]
        · exact decodeSafe_of_eq_mem hmem
            (load_block_0_safe s1 b hb0 (by omega) h256)
        · exact decodeSafe_of_eq_mem hmem (load_block_1_safe s1 b hb0)
        · exact decodeSafe_of_eq_mem hmem (load_block_2_safe s1 b hb0 h256)
        · refine decodeSafe_of_eq_mem hmem
            (load_block_3_safe s1 b hwf1 hb0 h256 ?_)
          intro hmem7
          exact hinv ((by decide :
            ∀ j, j ∈ [0xD3, 0xDB, 0xDD, 0xE3, 0xEB, 0xED, 0xFD] →
              j ∈ invalidOpcodes) b hmem7)

/-- C9 witness: the safety theorem applied to the concrete all-`0x42` bus,
whose every fetch succeeds, so the decode succeeds. -/
theorem load_instruction_decodes_valid_opcodes_witness :
    (∀ a v, (decodeSys 0x42).memory.loadByte a = some v → v < 256) ∧
    (decodeSys 0x42).memory.loadByte (decodeSys 0x42).registers.pc = some 0x42 ∧
    0x42 ∉ invalidOpcodes ∧
    ((((decodeSys 0x42).load_instruction).isOk = true ∨
      ((decodeSys 0x42).load_instruction).isMemRead = true) ∧
     ((∀ a, ((decodeSys 0x42).memory.loadByte a).isSome = true) →
      (∀ a, ((decodeSys 0x42).memory.loadHalfWord a).isSome = true) →
      ((decodeSys 0x42).load_instruction).isOk = true)) :=
  ⟨fun a v hv => by
      simp [decodeSys, decodeBus] at hv
      omega,
   by decide, by decide,
   load_instruction_decodes_valid_opcodes (decodeSys 0x42) 0x42
     (fun a v hv => by
       simp [decodeSys, decodeBus] at hv
       omega)
     (by decide) (by decide)⟩

end GB
